import Mathlib

/-!
Verification of the Motorshield firmware (core.cpp and its mecanum
configuration header) against its natural-language specification.

The mecanum kinematics of the repository is a pair of fixed linear maps
over the geometry constants of the configuration header:

  WHEELRADIUS = 0.075  (radius of wheels)
  L_X = 0.38           (distance between wheel contact points in x direction)
  L_Y = 0.32           (distance between wheel contact points in y direction)

All velocity arithmetic in the source is double-precision floating point;
we embed it in exact rational arithmetic, which is the canonical shallow
embedding of the same linear algebra.
-/

/-- Geometry constant `WHEELRADIUS` (0.075, radius of wheels). -/
def WHEELRADIUS : ℚ := 3 / 40

/-- Geometry constant `L_X` (0.38, distance between wheel contact points in x direction). -/
def L_X : ℚ := 19 / 50

/-- Geometry constant `L_Y` (0.32, distance between wheel contact points in y direction). -/
def L_Y : ℚ := 8 / 25

/-- The 4x3 matrix literal built inside `calculateWheelVelocity`
(body-frame velocity to wheel angular velocities, before the 1/WHEELRADIUS
scaling). Row order is the wheel index order; column order is (vx, vy, w). -/
def forwardKinematicsModel : Matrix (Fin 4) (Fin 3) ℚ :=
  Matrix.of ![![1, -1, -(L_X + L_Y)],
              ![1, 1, L_X + L_Y],
              ![1, 1, -(L_X + L_Y)],
              ![1, -1, L_X + L_Y]]

/-- `calculateWheelVelocity`: wheelVelocity = forwardKinematicsModel * robotVelocity,
then each entry is multiplied by 1 / WHEELRADIUS. -/
def calculateWheelVelocity (robotVelocity : Fin 3 → ℚ) : Fin 4 → ℚ :=
  fun i => forwardKinematicsModel.mulVec robotVelocity i * (1 / WHEELRADIUS)

/-- The 3x4 matrix literal built inside `calculateRobotVelocity`
(wheel angular velocities to body-frame velocity, before the WHEELRADIUS/4
scaling). -/
def inverseKinematicsModel : Matrix (Fin 3) (Fin 4) ℚ :=
  Matrix.of ![![1, 1, 1, 1],
              ![-1, 1, 1, -1],
              ![-1 / (L_X + L_Y), 1 / (L_X + L_Y), -1 / (L_X + L_Y), 1 / (L_X + L_Y)]]

/-- `calculateRobotVelocity`: robotVelocity = inverseKinematicsModel * wheelVelocity,
then each entry is multiplied by WHEELRADIUS / 4. -/
def calculateRobotVelocity (wheelVelocity : Fin 4 → ℚ) : Fin 3 → ℚ :=
  fun i => inverseKinematicsModel.mulVec wheelVelocity i * (WHEELRADIUS / 4)

/-- Claim C1: kinematics round trip. For every body velocity vector
(vx, vy, w), applying `calculateWheelVelocity` (body to wheel) and then
`calculateRobotVelocity` (wheel to body) returns the original vector,
exactly in rational arithmetic. -/
theorem kinematics_round_trip (v : Fin 3 → ℚ) :
    calculateRobotVelocity (calculateWheelVelocity v) = v := by
  funext i
  fin_cases i <;>
    simp [calculateRobotVelocity, calculateWheelVelocity, inverseKinematicsModel,
      forwardKinematicsModel, Matrix.mulVec, Matrix.dotProduct, Fin.sum_univ_succ,
      WHEELRADIUS, L_X, L_Y] <;>
    ring

/-- Claim C5: end-to-end scenario. For the command (vx = 1.0, vy = 0, w = 0)
with wheel radius 0.075, `calculateWheelVelocity` yields four equal positive
wheel-target velocities 1.0 / 0.075 = 40/3 rad/s, and `calculateRobotVelocity`
applied to those four values reproduces (1.0, 0, 0). -/
theorem end_to_end_forward_command :
    (∀ i : Fin 4, calculateWheelVelocity ![1, 0, 0] i = 40 / 3) ∧
    (0 : ℚ) < 40 / 3 ∧
    calculateRobotVelocity (calculateWheelVelocity ![1, 0, 0]) = ![1, 0, 0] := by
  refine ⟨fun i => ?_, by norm_num, kinematics_round_trip ![1, 0, 0]⟩
  fin_cases i <;>
    simp [calculateWheelVelocity, forwardKinematicsModel, Matrix.mulVec,
      Matrix.dotProduct, Fin.sum_univ_succ, WHEELRADIUS, L_X, L_Y]

/-- PID controller state. Modelled from the spec: the PIDController class of
utils/controllers.hpp is not under src; the spec gives the discrete PID law
with gains (Kp, Ki, Kd), an accumulated integral, a previous error, and a
hold-previous-output guard for dt <= 0. The fourth constructor argument of
the source (0.01) is not described by the spec and is omitted. -/
structure PIDController where
  kp : ℚ
  ki : ℚ
  kd : ℚ
  integral : ℚ
  prevError : ℚ
  prevOutput : ℚ

/-- Modelled from the spec: update(target, measured, dt) computes
e = target - measured, integral += e*dt, derivative = (e - prevError)/dt and
returns Kp*e + Ki*integral + Kd*derivative; dt <= 0 returns the previous
output unchanged. -/
def PIDController.update (c : PIDController) (target measured dt : ℚ) :
    PIDController × ℚ :=
  if dt ≤ 0 then (c, c.prevOutput)
  else
    let e := target - measured
    let integral := c.integral + e * dt
    let deriv := (e - c.prevError) / dt
    let out := c.kp * e + c.ki * integral + c.kd * deriv
    ({ c with integral := integral, prevError := e, prevOutput := out }, out)

/-- The Arduino PI macro, as an exact rational literal. -/
def PI : ℚ := 3.1415926535897932384626433832795

/-- Wrap-around subtraction of 32-bit unsigned timestamps (unsigned long on
the ESP32 target), as used by micros()/millis() deltas in the source. -/
def usub32 (a b : Nat) : Nat := (a + (2 ^ 32 - b % 2 ^ 32)) % 2 ^ 32

/-- State mutated by the position-test loop at the end of setup(): the local
PID controller pid_, the timestamps last_time and last_rotation_step, the
local wanted_angle, the angle accumulator of encoder_M0 (modelled from the
spec: the HalfQuadEncoder class is not under src; update() refreshes the
accumulated angle, get_angle() reads it) and the last control effort applied
to driver_M0. -/
structure SetupLoopState where
  pid : PIDController
  lastTime : Nat
  lastRotationStep : Nat
  wantedAngle : ℚ
  encoderAngle : ℚ
  motorControl : ℚ

/-- The asynchronous inputs one iteration of the position-test loop reads:
the micros() and millis() clocks and the angle the encoder sampling yields. -/
structure LoopEnv where
  micros : Nat
  millis : Nat
  measuredAngle : ℚ

/-- One pass through the body of the while(true) position-test loop in
setup(): encoder_M0.update(); sampling_time = (micros() - last_time)/1e6;
control = pid_.update(PI, encoder_M0.get_angle(), sampling_time); every 5000
ms wanted_angle += PI/2; driver_M0.set_motor_control(control); last_time =
micros(). The body contains no break and no return statement. -/
def setupLoopBody (env : LoopEnv) (s : SetupLoopState) : SetupLoopState :=
  let encoderAngle := env.measuredAngle
  let samplingTime : ℚ := (usub32 env.micros s.lastTime : ℚ) / 1000000
  let pc := s.pid.update PI encoderAngle samplingTime
  let step :=
    if 5000 < usub32 env.millis s.lastRotationStep
    then (env.millis, s.wantedAngle + PI / 2)
    else (s.lastRotationStep, s.wantedAngle)
  { pid := pc.1, lastTime := env.micros, lastRotationStep := step.1,
    wantedAngle := step.2, encoderAngle := encoderAngle, motorControl := pc.2 }

/-- The loop condition of the position-test loop: the source literal is
while (true). -/
def setupLoopCond : SetupLoopState → Bool := fun _ => true

/-- Control point of the program after micro-ROS initialization: either still
inside the position-test loop of setup(), or executing loop(). The Arduino
runtime calls loop() only after setup() returns, so inLoopFn is reachable
only by falling out of the position-test loop. -/
inductive ControlPoint where
  | inSetupLoop (s : SetupLoopState)
  | inLoopFn

/-- One scheduler step: inside the position-test loop, test the condition and
either run the body or fall through to loop(); once in loop(), stay there. -/
def controlStep (env : LoopEnv) : ControlPoint → ControlPoint
  | ControlPoint.inSetupLoop s =>
      if setupLoopCond s then ControlPoint.inSetupLoop (setupLoopBody env s)
      else ControlPoint.inLoopFn
  | ControlPoint.inLoopFn => ControlPoint.inLoopFn

/-- Run the control flow under a finite trace of environment inputs. -/
def controlRun : List LoopEnv → ControlPoint → ControlPoint
  | [], c => c
  | e :: es, c => controlRun es (controlStep e c)

/-- Claim C2: setup() never returns. From any state of the position-test loop
and under every finite trace of clock/encoder inputs, control stays at the
while(true) loop (whose condition is the literal true and whose body has no
break or return), so loop() is never executed in any run of the program. -/
theorem setup_never_reaches_loop (envs : List LoopEnv) (s0 : SetupLoopState) :
    controlRun envs (ControlPoint.inSetupLoop s0) ≠ ControlPoint.inLoopFn := by
  induction envs generalizing s0 with
  | nil => simp [controlRun]
  | cons e es ih =>
      simpa [controlRun, controlStep, setupLoopCond] using ih (setupLoopBody e s0)

/-- A three-component vector message field (geometry_msgs Vector3). -/
structure Vector3Msg where
  x : ℚ
  y : ℚ
  z : ℚ

/-- A geometry_msgs Twist message: linear and angular velocity vectors. -/
structure TwistMsg where
  linear : Vector3Msg
  angular : Vector3Msg

/-- The mutable state of the VelocityController robot_controller that the
callback touches. Modelled from the spec: velocity_controller.hpp is not
under src; the spec says set_latest_command simply overwrites the stored
target, with no queuing and no history. -/
structure VelocityControllerState where
  latestCommand : Fin 3 → ℚ

/-- Modelled from the spec: set_latest_command overwrites the stored command
with its argument. -/
def set_latest_command (cmd : Fin 3 → ℚ) (s : VelocityControllerState) :
    VelocityControllerState :=
  { s with latestCommand := cmd }

/-- `cmd_vel_subscription_callback`: builds cmd = (linear.x, linear.y,
angular.z) from the incoming Twist message and calls
robot_controller.set_latest_command(cmd). -/
def cmd_vel_subscription_callback (msg : TwistMsg) (s : VelocityControllerState) :
    VelocityControllerState :=
  set_latest_command ![msg.linear.x, msg.linear.y, msg.angular.z] s

/-- Claim C6: for every incoming Twist message the callback overwrites the
stored command with exactly (linear.x, linear.y, angular.z); the result does
not depend on linear.z, angular.x, angular.y (varied freely below), and no
history is kept: running the callback after any earlier message gives the
same state as running it alone. -/
theorem cmd_vel_callback_spec (lx ly lz ax ay az lz2 ax2 ay2 : ℚ)
    (s : VelocityControllerState) (prev : TwistMsg) :
    (cmd_vel_subscription_callback ⟨⟨lx, ly, lz⟩, ⟨ax, ay, az⟩⟩ s).latestCommand
      = ![lx, ly, az] ∧
    cmd_vel_subscription_callback ⟨⟨lx, ly, lz⟩, ⟨ax, ay, az⟩⟩ s
      = cmd_vel_subscription_callback ⟨⟨lx, ly, lz2⟩, ⟨ax2, ay2, az⟩⟩ s ∧
    cmd_vel_subscription_callback ⟨⟨lx, ly, lz⟩, ⟨ax, ay, az⟩⟩
        (cmd_vel_subscription_callback prev s)
      = cmd_vel_subscription_callback ⟨⟨lx, ly, lz⟩, ⟨ax, ay, az⟩⟩ s := by
  refine ⟨rfl, rfl, rfl⟩

/-- The four volatile raw edge counters of the encoder section
(volatile uint16_t count_BL, count_BR, count_FL, count_FR). -/
structure EncoderCounters where
  count_BL : Nat
  count_BR : Nat
  count_FL : Nat
  count_FR : Nat

/-- Modulus of a uint16_t counter. -/
def UINT16_MOD : Nat := 65536

/-- Interrupt routine for the back-left encoder: count_BL++. -/
def function_ISR_EC_BL (s : EncoderCounters) : EncoderCounters :=
  { s with count_BL := (s.count_BL + 1) % UINT16_MOD }

/-- Interrupt routine for the back-right encoder: count_BR++. -/
def function_ISR_EC_BR (s : EncoderCounters) : EncoderCounters :=
  { s with count_BR := (s.count_BR + 1) % UINT16_MOD }

/-- Interrupt routine for the front-left encoder: count_FL++. -/
def function_ISR_EC_FL (s : EncoderCounters) : EncoderCounters :=
  { s with count_FL := (s.count_FL + 1) % UINT16_MOD }

/-- Interrupt routine for the front-right encoder: count_FR++. -/
def function_ISR_EC_FR (s : EncoderCounters) : EncoderCounters :=
  { s with count_FR := (s.count_FR + 1) % UINT16_MOD }

/-- Claim C7: each encoder interrupt routine increments exactly its own raw
edge counter by one (in the modular arithmetic of its uint16_t type) and
leaves every other counter, hence all other program state it could reach,
unchanged. -/
theorem isr_increments_only_own_counter (s : EncoderCounters) :
    (function_ISR_EC_BL s).count_BL = (s.count_BL + 1) % UINT16_MOD ∧
    (function_ISR_EC_BL s).count_BR = s.count_BR ∧
    (function_ISR_EC_BL s).count_FL = s.count_FL ∧
    (function_ISR_EC_BL s).count_FR = s.count_FR ∧
    (function_ISR_EC_BR s).count_BR = (s.count_BR + 1) % UINT16_MOD ∧
    (function_ISR_EC_BR s).count_BL = s.count_BL ∧
    (function_ISR_EC_BR s).count_FL = s.count_FL ∧
    (function_ISR_EC_BR s).count_FR = s.count_FR ∧
    (function_ISR_EC_FL s).count_FL = (s.count_FL + 1) % UINT16_MOD ∧
    (function_ISR_EC_FL s).count_BL = s.count_BL ∧
    (function_ISR_EC_FL s).count_BR = s.count_BR ∧
    (function_ISR_EC_FL s).count_FR = s.count_FR ∧
    (function_ISR_EC_FR s).count_FR = (s.count_FR + 1) % UINT16_MOD ∧
    (function_ISR_EC_FR s).count_BL = s.count_BL ∧
    (function_ISR_EC_FR s).count_BR = s.count_BR ∧
    (function_ISR_EC_FR s).count_FL = s.count_FL := by
  repeat first | constructor | rfl

/-- Two rationals share a (strict) sign: both positive or both negative. -/
def sameSign (a b : ℚ) : Prop := (0 < a ∧ 0 < b) ∨ (a < 0 ∧ b < 0)

instance : DecidablePred fun p : ℚ × ℚ => sameSign p.1 p.2 := by
  unfold sameSign; infer_instance

/-- Claim C3 counterexample: at the pure rotation command (vx = 0, vy = 0,
w = 1), the front-left wheel (index 0) and the back-right wheel (index 3) do
NOT share a sign: front-left is -28/3 and back-right is +28/3. So the claimed
pairing front-left with back-right (one sign) fails on the code. -/
theorem rotation_pairing_counterexample :
    ¬ sameSign (calculateWheelVelocity ![0, 0, 1] 0) (calculateWheelVelocity ![0, 0, 1] 3) := by
  have h0 : calculateWheelVelocity ![0, 0, 1] 0 = -28 / 3 := by
    simp [calculateWheelVelocity, forwardKinematicsModel, Matrix.mulVec,
      Matrix.dotProduct, Fin.sum_univ_succ, WHEELRADIUS, L_X, L_Y]
    norm_num
  have h3 : calculateWheelVelocity ![0, 0, 1] 3 = 28 / 3 := by
    simp [calculateWheelVelocity, forwardKinematicsModel, Matrix.mulVec,
      Matrix.dotProduct, Fin.sum_univ_succ, WHEELRADIUS, L_X, L_Y]
    norm_num
  rw [h0, h3]
  unfold sameSign
  norm_num

/-- Claim C3 (amended): for every pure rotation command (w > 0, vx = vy = 0),
the inverse transform pairs the LEFT-side wheels front-left (index 0) and
back-left (index 2) with one sign (negative) and the RIGHT-side wheels
front-right (index 1) and back-right (index 3) with the opposite sign
(positive), under the documented wheel-index ordering front-left, front-right,
back-left, back-right. -/
theorem rotation_sign_left_right (w : ℚ) (hw : 0 < w) :
    sameSign (calculateWheelVelocity ![0, 0, w] 0) (calculateWheelVelocity ![0, 0, w] 2) ∧
    sameSign (calculateWheelVelocity ![0, 0, w] 1) (calculateWheelVelocity ![0, 0, w] 3) ∧
    calculateWheelVelocity ![0, 0, w] 0 < 0 ∧
    0 < calculateWheelVelocity ![0, 0, w] 1 := by
  have e0 : calculateWheelVelocity ![0, 0, w] 0 = -(28 / 3) * w := by
    simp [calculateWheelVelocity, forwardKinematicsModel, Matrix.mulVec,
      Matrix.dotProduct, Fin.sum_univ_succ, WHEELRADIUS, L_X, L_Y]
    ring
  have e1 : calculateWheelVelocity ![0, 0, w] 1 = 28 / 3 * w := by
    simp [calculateWheelVelocity, forwardKinematicsModel, Matrix.mulVec,
      Matrix.dotProduct, Fin.sum_univ_succ, WHEELRADIUS, L_X, L_Y]
    ring
  have e2 : calculateWheelVelocity ![0, 0, w] 2 = -(28 / 3) * w := by
    simp [calculateWheelVelocity, forwardKinematicsModel, Matrix.mulVec,
      Matrix.dotProduct, Fin.sum_univ_succ, WHEELRADIUS, L_X, L_Y]
    ring
  have e3 : calculateWheelVelocity ![0, 0, w] 3 = 28 / 3 * w := by
    simp [calculateWheelVelocity, forwardKinematicsModel, Matrix.mulVec,
      Matrix.dotProduct, Fin.sum_univ_succ, WHEELRADIUS, L_X, L_Y]
    ring
  rw [e0, e1, e2, e3]
  unfold sameSign
  constructor
  · right; constructor <;> nlinarith
  refine ⟨Or.inl ⟨by nlinarith, by nlinarith⟩, by nlinarith, by nlinarith⟩

/-- Witness for the amended claim C3 at the concrete rotation command w = 1. -/
theorem rotation_sign_left_right_witness :
    sameSign (calculateWheelVelocity ![0, 0, 1] 0) (calculateWheelVelocity ![0, 0, 1] 2) ∧
    sameSign (calculateWheelVelocity ![0, 0, 1] 1) (calculateWheelVelocity ![0, 0, 1] 3) ∧
    calculateWheelVelocity ![0, 0, 1] 0 < 0 ∧
    0 < calculateWheelVelocity ![0, 0, 1] 1 :=
  rotation_sign_left_right 1 (by norm_num)

/-- Half of L_X: the longitudinal half-distance (half-wheelbase), given that
the configuration header documents L_X as the distance between wheel contact
points in x direction. -/
def halfWheelbase : ℚ := L_X / 2

/-- Half of L_Y: the lateral half-distance (half-trackwidth), given that the
configuration header documents L_Y as the distance between wheel contact
points in y direction. -/
def halfTrackwidth : ℚ := L_Y / 2

/-- The coefficient multiplying the angular velocity w in row i of the inverse
transform, obtained by evaluating the (linear) transform at the unit rotation
input (0, 0, 1). -/
def wCoefficient (i : Fin 4) : ℚ := calculateWheelVelocity ![0, 0, 1] i

/-- Claim C4 counterexample: in the inverse transform, the coefficient
multiplying w in wheel row 0 has magnitude 28/3, which is NOT the sum of the
half-wheelbase (0.19) and the half-trackwidth (0.16) divided by the wheel
radius (0.075), i.e. 14/3. -/
theorem w_coefficient_counterexample :
    |wCoefficient 0| ≠ (halfWheelbase + halfTrackwidth) / WHEELRADIUS := by
  have h0 : wCoefficient 0 = -28 / 3 := by
    unfold wCoefficient
    simp [calculateWheelVelocity, forwardKinematicsModel, Matrix.mulVec,
      Matrix.dotProduct, Fin.sum_univ_succ, WHEELRADIUS, L_X, L_Y]
    norm_num
  rw [h0]
  unfold halfWheelbase halfTrackwidth WHEELRADIUS L_X L_Y
  norm_num [abs_of_nonpos]

/-- Claim C4 (amended): in the inverse transform, the coefficient multiplying
w in every wheel row has magnitude (L_X + L_Y) / WHEELRADIUS — the sum of the
FULL wheelbase and the FULL trackwidth divided by the wheel radius, which is
twice the sum of the half-distances divided by the radius. -/
theorem w_coefficient_magnitude (i : Fin 4) :
    |wCoefficient i| = (L_X + L_Y) / WHEELRADIUS ∧
    |wCoefficient i| = 2 * ((halfWheelbase + halfTrackwidth) / WHEELRADIUS) := by
  fin_cases i <;>
    · constructor <;>
        · unfold wCoefficient
          simp [calculateWheelVelocity, forwardKinematicsModel, Matrix.mulVec,
            Matrix.dotProduct, Fin.sum_univ_succ, WHEELRADIUS, L_X, L_Y,
            halfWheelbase, halfTrackwidth]
          norm_num [abs_of_nonpos, abs_of_nonneg]

/-- The observable state of one HalfQuadEncoder: the accumulated angle
returned by get_angle() and the velocity estimate returned by
get_velocity(). Modelled from the spec: encoder.hpp is not under src. -/
structure HalfQuadEncoder where
  angle : ℚ
  velocity : ℚ

/-- A PIDMotorController as constructed in core.cpp: it is bound at
construction to one motor driver and one encoder. We record the index of the
encoder global it references (encoder_M0 .. encoder_M3 as indices 0 .. 3). -/
structure PIDMotorControllerRef where
  encoderIdx : Fin 4

/-- controller_M0 = PIDMotorController(driver_M0, encoder_M0). -/
def controller_M0 : PIDMotorControllerRef := ⟨0⟩

/-- controller_M1 = PIDMotorController(driver_M1, encoder_M1). -/
def controller_M1 : PIDMotorControllerRef := ⟨1⟩

/-- controller_M2 = PIDMotorController(driver_M2, encoder_M2). -/
def controller_M2 : PIDMotorControllerRef := ⟨2⟩

/-- controller_M3 = PIDMotorController(driver_M3, encoder_M3). -/
def controller_M3 : PIDMotorControllerRef := ⟨3⟩

/-- motor_control_manager holds the controllers in index order
(controller_M0, controller_M1, controller_M2, controller_M3). -/
def motor_control_manager : Fin 4 → PIDMotorControllerRef :=
  ![controller_M0, controller_M1, controller_M2, controller_M3]

/-- The joint names assigned in setup(): index 0 front-left, 1 front-right,
2 back-left, 3 back-right. -/
def jointStateNames : Fin 4 → String :=
  !["wheel_front_left_joint", "wheel_front_right_joint",
    "wheel_back_left_joint", "wheel_back_right_joint"]

/-- The position array written by loop():
position.data[i] = encoder_Mi.get_angle(), for the global encoders passed in
as a family indexed by 0 .. 3. -/
def jointStatePositions (enc : Fin 4 → HalfQuadEncoder) : Fin 4 → ℚ :=
  ![(enc 0).angle, (enc 1).angle, (enc 2).angle, (enc 3).angle]

/-- The velocity array written by loop():
velocity.data[i] = encoder_Mi.get_velocity(). -/
def jointStateVelocities (enc : Fin 4 → HalfQuadEncoder) : Fin 4 → ℚ :=
  ![(enc 0).velocity, (enc 1).velocity, (enc 2).velocity, (enc 3).velocity]

/-- Claim C8: wheel-index ordering consistency. The joint-state message names
the wheels front-left, front-right, back-left, back-right at indices 0 .. 3,
and for every index i the published position and velocity at i are read from
the encoder referenced by the controller that motor_control_manager holds at
index i. -/
theorem joint_state_ordering_consistent (enc : Fin 4 → HalfQuadEncoder) (i : Fin 4) :
    jointStateNames 0 = "wheel_front_left_joint" ∧
    jointStateNames 1 = "wheel_front_right_joint" ∧
    jointStateNames 2 = "wheel_back_left_joint" ∧
    jointStateNames 3 = "wheel_back_right_joint" ∧
    jointStatePositions enc i = (enc (motor_control_manager i).encoderIdx).angle ∧
    jointStateVelocities enc i = (enc (motor_control_manager i).encoderIdx).velocity := by
  refine ⟨rfl, rfl, rfl, rfl, ?_, ?_⟩ <;>
    fin_cases i <;> rfl

/-- The mutable global state of the program that the kinematics functions
could in principle read or write: the interrupt counters, the pose
accumulator, the odometry timestamp and the stored command. -/
structure ProgramState where
  counters : EncoderCounters
  pose : Fin 3 → ℚ
  last_time : Nat
  controller : VelocityControllerState

/-- State-passing embedding of calculateWheelVelocity: the body of the source
function reads only its argument and the compile-time geometry constants and
writes only its locals, so the global state passes through unchanged and the
result is the pure transform. -/
def calculateWheelVelocityS (s : ProgramState) (v : Fin 3 → ℚ) :
    ProgramState × (Fin 4 → ℚ) :=
  (s, calculateWheelVelocity v)

/-- State-passing embedding of calculateRobotVelocity: as above, the body
touches no global state. -/
def calculateRobotVelocityS (s : ProgramState) (w : Fin 4 → ℚ) :
    ProgramState × (Fin 3 → ℚ) :=
  (s, calculateRobotVelocity w)

/-- Claim C9: determinism and statelessness of the kinematic transforms. Both
transforms leave the program state unchanged, and two calls with the same
input from arbitrarily different program states return the same output. -/
theorem kinematics_pure_stateless (s1 s2 : ProgramState)
    (v : Fin 3 → ℚ) (w : Fin 4 → ℚ) :
    (calculateWheelVelocityS s1 v).1 = s1 ∧
    (calculateRobotVelocityS s1 w).1 = s1 ∧
    (calculateWheelVelocityS s1 v).2 = (calculateWheelVelocityS s2 v).2 ∧
    (calculateRobotVelocityS s1 w).2 = (calculateRobotVelocityS s2 w).2 := by
  exact ⟨rfl, rfl, rfl, rfl⟩

/-- The C library atan2, embedded through the complex argument: atan2 y x is
the argument of the complex number x + y*i, with values in (-pi, pi] (and
atan2 0 0 = 0). -/
noncomputable def atan2 (y x : ℝ) : ℝ := Complex.arg ⟨x, y⟩

/-- The pose update of one iteration of loop(): Euler integration of the
body velocity rotated into the world frame, followed by the heading
renormalization pose(2) = atan2(sin(pose(2)), cos(pose(2))). -/
noncomputable def loopPoseUpdate (robotVelocity : Fin 3 → ℝ) (dt : ℝ)
    (pose : Fin 3 → ℝ) : Fin 3 → ℝ :=
  let p0 := pose 0 + robotVelocity 0 * Real.cos (pose 2) * dt -
              robotVelocity 1 * Real.sin (pose 2) * dt
  let p1 := pose 1 + robotVelocity 0 * Real.sin (pose 2) * dt +
              robotVelocity 1 * Real.cos (pose 2) * dt
  let p2 := pose 2 + robotVelocity 2 * dt
  ![p0, p1, atan2 (Real.sin p2) (Real.cos p2)]

/-- Claim C10: heading normalization invariant. After every iteration of
loop(), for every robot velocity, elapsed time and incoming pose, the heading
component pose(2) lies in [-pi, pi], because it is renormalized via
atan2(sin, cos) immediately after the integration step. -/
theorem heading_normalization_invariant (robotVelocity : Fin 3 → ℝ) (dt : ℝ)
    (pose : Fin 3 → ℝ) :
    loopPoseUpdate robotVelocity dt pose 2 ∈ Set.Icc (-Real.pi) Real.pi := by
  have h : loopPoseUpdate robotVelocity dt pose 2 =
      Complex.arg ⟨Real.cos (pose 2 + robotVelocity 2 * dt),
                   Real.sin (pose 2 + robotVelocity 2 * dt)⟩ := rfl
  rw [h]
  have hmem := Complex.arg_mem_Ioc
    (⟨Real.cos (pose 2 + robotVelocity 2 * dt),
      Real.sin (pose 2 + robotVelocity 2 * dt)⟩ : ℂ)
  exact ⟨le_of_lt hmem.1, hmem.2⟩
